import Mathlib

/-!
Shallow embedding of `src/scraper.py` (an ESG score scraper for Yahoo
Finance): the per-ticker fetch loop `fetch_historical_esg` and the
column-normalising `format_esg_data`, together with the fragment of
pandas / Python semantics the two functions exercise (JSON values,
DataFrames as ordered columns plus association-list rows, subscripting
that can raise, epoch-second to calendar-timestamp conversion).
-/

namespace ESGScraper

/-- JSON values as returned by `response.json()`. Numbers are modelled as
integers (all scores and timestamps in the data are integral). Objects are
association lists; lookup returns the first binding. -/
inductive Json where
  | null : Json
  | num (n : Int) : Json
  | str (s : String) : Json
  | arr (xs : List Json) : Json
  | obj (kvs : List (String × Json)) : Json

/-- A calendar timestamp, as produced by `pd.to_datetime(·, unit="s")`. -/
structure DateTime where
  year : Int
  month : Nat
  day : Nat
  hour : Nat
  minute : Nat
  second : Nat
deriving DecidableEq, Repr

/-- Convert a count of days since 1970-01-01 to a proleptic Gregorian civil
date (year, month, day); the standard era-based algorithm. -/
def civilFromDays (z0 : Int) : Int × Nat × Nat :=
  let z := z0 + 719468
  let era : Int := z.ediv 146097
  let doe : Nat := (z.emod 146097).toNat
  let yoe : Nat := (doe - doe / 1460 + doe / 36524 - doe / 146096) / 365
  let y : Int := era * 400 + yoe
  let doy : Nat := doe - (365 * yoe + yoe / 4 - yoe / 100)
  let mp : Nat := (5 * doy + 2) / 153
  let d : Nat := doy - (153 * mp + 2) / 5 + 1
  let m : Nat := if mp < 10 then mp + 3 else mp - 9
  (if m ≤ 2 then y + 1 else y, m, d)

/-- `pd.to_datetime(n, unit="s")`: epoch seconds to a calendar timestamp. -/
def epochToDateTime (n : Int) : DateTime :=
  let sod : Nat := (n.emod 86400).toNat
  let c := civilFromDays (n.ediv 86400)
  { year := c.1, month := c.2.1, day := c.2.2,
    hour := sod / 3600, minute := sod % 3600 / 60, second := sod % 60 }

/-- One cell of a DataFrame: either a raw JSON value carried over from the
fetched records, a converted calendar timestamp, or NaN (missing). -/
inductive Cell where
  | json (j : Json) : Cell
  | time (t : DateTime) : Cell
  | nan : Cell

/-- A pandas DataFrame: an ordered list of column names plus rows stored as
association lists from column name to cell. A column of `cols` missing
from a row's association list reads as NaN. -/
structure DataFrame where
  cols : List String
  rows : List (List (String × Cell))

/-- Read one cell of a row; a missing binding is NaN. -/
def rowGet (r : List (String × Cell)) (c : String) : Cell :=
  match r with
  | [] => Cell.nan
  | (k, v) :: rest => if k = c then v else rowGet rest c

/-- Column assignment at row level (`df[k] = v` for one row): overwrite the
binding in place when present, append it otherwise. -/
def rowSet (r : List (String × Cell)) (k : String) (v : Cell) : List (String × Cell) :=
  if r.any (fun kv => kv.1 = k) then
    r.map (fun kv => if kv.1 = k then (k, v) else kv)
  else r ++ [(k, v)]

/-- `df[k] = v` with a scalar `v` (lines 59 and 127): every row gets the
value; the column is appended when new, kept in place when present. -/
def setCol (df : DataFrame) (k : String) (v : Cell) : DataFrame :=
  { cols := if k ∈ df.cols then df.cols else df.cols ++ [k],
    rows := df.rows.map (fun r => rowSet r k v) }

/-- Column projection `df[cs]` (lines 65 and 135): raises KeyError when a
requested column is absent. -/
def selectCols (df : DataFrame) (cs : List String) : Except Unit DataFrame :=
  if ∀ c ∈ cs, c ∈ df.cols then
    Except.ok { cols := cs, rows := df.rows.map (fun r => cs.map (fun c => (c, rowGet r c))) }
  else Except.error ()

/-- First binding of a key in a JSON object's association list. -/
def objGet (kvs : List (String × Json)) (k : String) : Option Json :=
  match kvs with
  | [] => none
  | (k0, v) :: rest => if k0 = k then some v else objGet rest k

/-- Whether a JSON object binds a key. -/
def hasKey (kvs : List (String × Json)) (k : String) : Bool :=
  match kvs with
  | [] => false
  | (k0, _) :: rest => if k0 = k then true else hasKey rest k

/-- Python `key in j` on a JSON value: key membership for dicts, element
membership for lists, substring test for strings, TypeError (modelled as
`Except.error`) for numbers and null. -/
def pyIn (key : String) (j : Json) : Except Unit Bool :=
  match j with
  | .obj kvs => Except.ok (hasKey kvs key)
  | .arr xs => Except.ok (xs.any (fun x => match x with | .str s => s = key | _ => false))
  | .str s => Except.ok (decide ((s.splitOn key).length > 1))
  | _ => Except.error ()

/-- Python `j[key]` for a string key: dict lookup (KeyError when absent);
TypeError on every other shape. -/
def pySubscript (j : Json) (key : String) : Except Unit Json :=
  match j with
  | .obj kvs =>
      match objGet kvs key with
      | some v => Except.ok v
      | none => Except.error ()
  | _ => Except.error ()

/-- Python `j[0]` as used on the parsed result list (line 55): the head of
a non-empty list; IndexError on an empty list. On every other shape the
chain `j[0]["symbolSeries"]` raises as well, so those collapse to an
error here too. -/
def pyFirst (j : Json) : Except Unit Json :=
  match j with
  | .arr (x :: _) => Except.ok x
  | _ => Except.error ()

/-- The guard at line 53: `"esgChart" in data and "result" in data["esgChart"]`
(short-circuiting, and able to raise). -/
def shapeCheck (data : Json) : Except Unit Bool := do
  let b ← pyIn "esgChart" data
  if b then
    let v ← pySubscript data "esgChart"
    pyIn "result" v
  else
    return false

/-- Line 55: `data["esgChart"]["result"][0]["symbolSeries"]`. -/
def extractSeries (data : Json) : Except Unit Json := do
  let a ← pySubscript data "esgChart"
  let b ← pySubscript a "result"
  let c ← pyFirst b
  pySubscript c "symbolSeries"

/-- Append a key to a key list unless already present. -/
def addKey (a : List String) (k : String) : List String :=
  if k ∈ a then a else a ++ [k]

/-- Fold one record's keys into the accumulated column list. -/
def addRecordKeys (acc : List String) (r : Json) : List String :=
  match r with
  | .obj kvs => kvs.foldl (fun a kv => addKey a kv.1) acc
  | _ => acc

/-- Column names of a record list: the union of the records' keys in order
of first appearance, as pandas computes it for a list of dicts. -/
def recordKeys (rs : List Json) : List String :=
  rs.foldl addRecordKeys []

/-- Whether one record of the series (a JSON object) binds a field name;
a record that is not an object binds nothing. -/
def recordHasField (r : Json) (k : String) : Bool :=
  match r with
  | .obj kvs => hasKey kvs k
  | _ => false

/-- One record dict as a DataFrame row. -/
def recordToRow (r : Json) : List (String × Cell) :=
  match r with
  | .obj kvs => kvs.map (fun kv => (kv.1, Cell.json kv.2))
  | _ => []

/-- Whether every record of the series is a JSON object. -/
def allObjs (rs : List Json) : Bool :=
  rs.all (fun r => match r with | .obj _ => true | _ => false)

/-- `pd.DataFrame(esg_data)` at line 58 for a list of record dicts: columns
are the union of keys in first-appearance order, a field missing from a
record reads as NaN. A non-list argument, or records that are not dicts,
make this call or the subsequent column accesses raise; both are caught by
the same generic handler, so they are collapsed to an error here. -/
def pdDataFrameOfRecords (j : Json) : Except Unit DataFrame :=
  match j with
  | .arr rs =>
      if allObjs rs then
        Except.ok { cols := recordKeys rs, rows := rs.map recordToRow }
      else Except.error ()
  | _ => Except.error ()

/-- Conversion of one timestamp cell by `pd.to_datetime(·, unit="s")`:
integers become calendar timestamps, null/NaN become NaT, anything else
raises. -/
def toDatetimeCell (c : Cell) : Except Unit Cell :=
  match c with
  | .json (.num n) => Except.ok (Cell.time (epochToDateTime n))
  | .json .null => Except.ok Cell.nan
  | .nan => Except.ok Cell.nan
  | .time t => Except.ok (Cell.time t)
  | _ => Except.error ()

/-- One binding of a row under the timestamp conversion: bindings of the
`timestamp` column are converted, all others pass through. -/
def convKV (kv : String × Cell) : Except Unit (String × Cell) :=
  if kv.1 = "timestamp" then (toDatetimeCell kv.2).map (fun c => (kv.1, c))
  else Except.ok kv

/-- One row under the timestamp conversion. -/
def convRow (r : List (String × Cell)) : Except Unit (List (String × Cell)) :=
  r.mapM convKV

/-- Line 60: `df["timestamp"] = pd.to_datetime(df["timestamp"], unit="s")`.
KeyError when the column is absent; otherwise every timestamp cell is
converted in place. -/
def convertTimestamp (df : DataFrame) : Except Unit DataFrame :=
  if "timestamp" ∈ df.cols then
    (df.rows.mapM convRow).map (fun rows => { cols := df.cols, rows := rows })
  else Except.error ()

/-- The projection list at lines 63-64. -/
def columnsToKeep : List String :=
  ["timestamp", "ticker", "esgScore", "governanceScore",
   "environmentScore", "socialScore"]

/-- Lines 58-65 for one ticker: build the DataFrame from the series, stamp
the ticker column, convert timestamps, project to the fixed column list. -/
def buildTickerDF (esg_data : Json) (ticker : String) : Except Unit DataFrame := do
  let df ← pdDataFrameOfRecords esg_data
  let df := setCol df "ticker" (Cell.json (Json.str ticker))
  let df ← convertTimestamp df
  selectCols df columnsToKeep

/-- Outcome of the body-processing at lines 51-75 of a response that
arrived with a success status. -/
inductive BodyOutcome where
  | success (df : DataFrame)
  | noData
  | raised

/-- Lines 51-75: parse-and-extract for one success response; `noData` is
the guard-false branch at line 70, `raised` is any exception caught by the
handler at line 88 (both are counted as a failed ticker). -/
def processBody (data : Json) (ticker : String) : BodyOutcome :=
  match shapeCheck data with
  | .error _ => .raised
  | .ok false => .noData
  | .ok true =>
      match (do buildTickerDF (← extractSeries data) ticker : Except Unit DataFrame) with
      | .ok df => .success df
      | .error _ => .raised

/-- The observable outcome of one HTTP request: a completed response with
its status code and the result of `response.json()` (`Except.error` is a
JSONDecodeError, consulted only when the status is a success), or a
`requests.RequestException` (connection error, timeout). -/
inductive FetchResult where
  | response (code : Nat) (body : Except Unit Json)
  | netError

/-- `response.ok` of the requests library: status code below 400. -/
def respOk (code : Nat) : Bool := code < 400

/-- How the loop body at lines 42-91 disposes of one ticker: a DataFrame
appended to `all_data` plus a success count, a failure count, or the
rate-limited branch at lines 76-79. -/
inductive TickerOutcome where
  | success (df : DataFrame)
  | failure
  | rateLimited

/-- Classification of one ticker's iteration from its response. -/
def classify (resp : FetchResult) (ticker : String) : TickerOutcome :=
  match resp with
  | .netError => .failure
  | .response code body =>
      if respOk code then
        match body with
        | .error _ => .failure
        | .ok data =>
            match processBody data ticker with
            | .success df => .success df
            | .noData => .failure
            | .raised => .failure
      else if code = 429 then .rateLimited
      else .failure

/-- The DataFrame one ticker contributes, when it contributes one. -/
def successDF (resp : FetchResult) (ticker : String) : Option DataFrame :=
  match classify resp ticker with
  | .success df => some df
  | _ => none

/-- The sequence of per-ticker DataFrames a run accumulates in `all_data`,
a pure function of the responses and the ticker list. -/
def producedData (responses : String → FetchResult) : List String → List DataFrame
  | [] => []
  | t :: ts => (successDF (responses t) t).toList ++ producedData responses ts

/-- The loop state of `fetch_historical_esg`: the accumulator and the two
counters of lines 30-32, plus a log of the seconds slept and of the
tickers a request was issued for (in order). -/
structure FetchState where
  all_data : List DataFrame
  successful_tickers : Nat
  failed_tickers : Nat
  sleeps : List Nat
  requests : List String

def initialState : FetchState :=
  { all_data := [], successful_tickers := 0, failed_tickers := 0,
    sleeps := [], requests := [] }

/-- One iteration of the loop at lines 36-91 for the ticker at position
`i`: the pacing sleep `delay + rand i` of line 40, the request, then the
branch on the outcome. A 429 adds the fixed 10-second sleep of line 78 and
touches nothing else. -/
def stepTicker (responses : String → FetchResult) (delay : Nat) (rand : Nat → Nat)
    (st : FetchState) (i : Nat) (ticker : String) : FetchState :=
  let st1 : FetchState :=
    { st with sleeps := st.sleeps ++ [delay + rand i],
              requests := st.requests ++ [ticker] }
  match classify (responses ticker) ticker with
  | .success df =>
      { st1 with all_data := st1.all_data ++ [df],
                 successful_tickers := st1.successful_tickers + 1 }
  | .failure => { st1 with failed_tickers := st1.failed_tickers + 1 }
  | .rateLimited => { st1 with sleeps := st1.sleeps ++ [10] }

/-- The whole loop, processing the remaining tickers from position `i`. -/
def runLoop (responses : String → FetchResult) (delay : Nat) (rand : Nat → Nat) :
    FetchState → Nat → List String → FetchState
  | st, _, [] => st
  | st, i, t :: ts =>
      runLoop responses delay rand (stepTicker responses delay rand st i t) (i + 1) ts

/-- `pd.concat(all_data, ignore_index=True)` at line 99. Every DataFrame in
`all_data` carries the identical column list `columnsToKeep` (each is the
output of the projection at line 65), so concatenation keeps the first
member's columns and joins the rows. -/
def concatDFs (dfs : List DataFrame) : DataFrame :=
  { cols := match dfs with | [] => [] | d :: _ => d.cols,
    rows := (dfs.map (fun d => d.rows)).flatten }

/-- The fallback column list of lines 106-107, used when no ticker
succeeded. -/
def emptyFallbackColumns : List String :=
  ["ticker", "timestamp", "last_processing_date",
   "total_score", "environment_score", "social_score", "governance_score"]

/-- What `fetch_historical_esg` returns together with its observable
effects: the DataFrame, the two counters, the sleep log and the request
log. -/
structure FetchOutput where
  df : DataFrame
  successful_tickers : Nat
  failed_tickers : Nat
  sleeps : List Nat
  requests : List String

/-- `fetch_historical_esg(tickers, delay)` (lines 8-107), with the network
modelled as a map from ticker to response and the ambient randomness of
line 40 as a map from loop position to drawn delay. -/
def fetch_historical_esg (tickers : List String) (responses : String → FetchResult)
    (delay : Nat) (rand : Nat → Nat) : FetchOutput :=
  let st := runLoop responses delay rand initialState 1 tickers
  { df := if st.all_data.isEmpty then { cols := emptyFallbackColumns, rows := [] }
          else concatDFs st.all_data,
    successful_tickers := st.successful_tickers,
    failed_tickers := st.failed_tickers,
    sleeps := st.sleeps,
    requests := st.requests }

/-- The rename map of lines 117-122, as a function on column names. -/
def column_mapping (c : String) : String :=
  if c = "esgScore" then "total_score"
  else if c = "governanceScore" then "governance_score"
  else if c = "environmentScore" then "environment_score"
  else if c = "socialScore" then "social_score"
  else c

/-- `esg_df.rename(columns=column_mapping)` at line 124. -/
def renameCols (df : DataFrame) : DataFrame :=
  { cols := df.cols.map column_mapping,
    rows := df.rows.map (fun r => r.map (fun kv => (column_mapping kv.1, kv.2))) }

/-- The trailing score columns of the reorder loop at line 131. -/
def scoreColumnOrder : List String :=
  ["total_score", "environment_score", "social_score", "governance_score"]

/-- Lines 124-127 of `format_esg_data`: the renamed table with the
`last_processing_date` column stamped to `today`. -/
def formattedFrame (df : DataFrame) (today : String) : DataFrame :=
  setCol (renameCols df) "last_processing_date" (Cell.json (Json.str today))

/-- The reorder list built at lines 130-133: the fixed prefix followed by
those score columns present after renaming. -/
def formatTargetCols (df : DataFrame) (today : String) : List String :=
  ["ticker", "timestamp", "last_processing_date"] ++
    scoreColumnOrder.filter (fun c => c ∈ (formattedFrame df today).cols)

/-- `format_esg_data(esg_df)` (lines 109-135), with the wall-clock date of
line 127 passed in as `today`: identity on an empty table, otherwise
rename, stamp `last_processing_date`, and reorder via the projection at
line 135 (which can raise when `ticker` or `timestamp` is absent). -/
def format_esg_data (esg_df : DataFrame) (today : String) : Except Unit DataFrame :=
  if esg_df.rows.isEmpty then Except.ok esg_df
  else selectCols (formattedFrame esg_df today) (formatTargetCols esg_df today)

/-- Drop one column from a DataFrame (used to compare two runs' outputs
everywhere except `last_processing_date`). -/
def dropCol (df : DataFrame) (k : String) : DataFrame :=
  { cols := df.cols.filter (fun c => c ≠ k),
    rows := df.rows.map (fun r => r.filter (fun kv => kv.1 ≠ k)) }

/-! Helper lemmas about rows, columns and the `Except` monad. -/

lemma ex_pure {α : Type} (x : α) : (pure x : Except Unit α) = Except.ok x := rfl

lemma ex_bind_ok {α β : Type} (x : α) (g : α → Except Unit β) :
    (Except.ok x >>= g) = g x := rfl

lemma ex_bind_error {α β : Type} (g : α → Except Unit β) :
    ((Except.error () : Except Unit α) >>= g) = Except.error () := rfl

lemma ex_map_ok {α β : Type} (f : α → β) (x : α) :
    (Except.ok x : Except Unit α).map f = Except.ok (f x) := rfl

lemma ex_map_error {α β : Type} (f : α → β) :
    (Except.error () : Except Unit α).map f = Except.error () := rfl

lemma rowGet_map_set_self (r : List (String × Cell)) (k : String) (v : Cell)
    (h : r.any (fun kv => kv.1 = k)) :
    rowGet (r.map (fun kv => if kv.1 = k then (k, v) else kv)) k = v := by
  induction r with
  | nil => simp at h
  | cons kv rest ih =>
    obtain ⟨k0, v0⟩ := kv
    simp only [List.map_cons]
    by_cases hk : k0 = k
    · rw [if_pos hk]
      simp [rowGet]
    · rw [if_neg hk]
      have hrest : rest.any (fun kv => kv.1 = k) := by
        simp only [List.any_cons, Bool.or_eq_true, decide_eq_true_eq] at h
        exact h.resolve_left hk
      simp only [rowGet]
      rw [if_neg hk]
      exact ih hrest

lemma rowGet_append_single_self (r : List (String × Cell)) (k : String) (v : Cell) :
    rowGet (r ++ [(k, v)]) k = if r.any (fun kv => kv.1 = k) then rowGet r k else v := by
  induction r with
  | nil => simp [rowGet]
  | cons kv rest ih =>
    obtain ⟨k0, v0⟩ := kv
    rw [List.cons_append]
    by_cases hk : k0 = k
    · simp [rowGet, hk]
    · simp only [rowGet]
      rw [if_neg hk, ih, List.any_cons, decide_eq_false hk, Bool.false_or, if_neg hk]

lemma rowGet_rowSet_self (r : List (String × Cell)) (k : String) (v : Cell) :
    rowGet (rowSet r k v) k = v := by
  by_cases h : r.any (fun kv => kv.1 = k)
  · rw [rowSet, if_pos h]
    exact rowGet_map_set_self r k v h
  · rw [rowSet, if_neg h]
    rw [rowGet_append_single_self, if_neg h]

lemma rowGet_map_set_ne (r : List (String × Cell)) (k : String) (v : Cell) (c : String)
    (hck : c ≠ k) :
    rowGet (r.map (fun kv => if kv.1 = k then (k, v) else kv)) c = rowGet r c := by
  induction r with
  | nil => rfl
  | cons kv rest ih =>
    obtain ⟨k0, v0⟩ := kv
    simp only [List.map_cons]
    by_cases hk : k0 = k
    · have hkc : ¬(k = c) := fun h => hck h.symm
      have hkvc : ¬(k0 = c) := by rw [hk]; exact hkc
      rw [if_pos hk]
      simp only [rowGet]
      rw [if_neg hkc, if_neg hkvc]
      exact ih
    · rw [if_neg hk]
      by_cases hc : k0 = c
      · simp only [rowGet]
        rw [if_pos hc, if_pos hc]
      · simp only [rowGet]
        rw [if_neg hc, if_neg hc]
        exact ih

lemma rowGet_append_single_ne (r : List (String × Cell)) (k : String) (v : Cell) (c : String)
    (hck : c ≠ k) :
    rowGet (r ++ [(k, v)]) c = rowGet r c := by
  induction r with
  | nil =>
    have : ¬(k = c) := fun h => hck h.symm
    simp [rowGet, this]
  | cons kv rest ih =>
    obtain ⟨k0, v0⟩ := kv
    by_cases hc : k0 = c
    · simp only [List.cons_append, rowGet, if_pos hc]
    · simp only [List.cons_append, rowGet, if_neg hc]
      exact ih

lemma rowGet_rowSet_ne (r : List (String × Cell)) (k : String) (v : Cell) (c : String)
    (hck : c ≠ k) :
    rowGet (rowSet r k v) c = rowGet r c := by
  by_cases h : r.any (fun kv => kv.1 = k)
  · rw [rowSet, if_pos h]
    exact rowGet_map_set_ne r k v c hck
  · rw [rowSet, if_neg h]
    exact rowGet_append_single_ne r k v c hck

lemma rowGet_projRow (cs : List String) (f : String → Cell) (k : String) :
    rowGet (cs.map (fun c => (c, f c))) k = if k ∈ cs then f k else Cell.nan := by
  induction cs with
  | nil => simp [rowGet]
  | cons c rest ih =>
    by_cases hc : c = k
    · subst hc
      simp only [List.map_cons, rowGet, if_pos rfl, List.mem_cons, true_or, if_pos]
    · have hck : ¬(k = c) := fun h => hc h.symm
      simp only [List.map_cons, rowGet, if_neg hc, ih, List.mem_cons]
      simp [hck]

lemma rowGet_mapKeys (g : String → String) (r : List (String × Cell)) (k : String)
    (hg : ∀ c, g c = k ↔ c = k) :
    rowGet (r.map (fun kv => (g kv.1, kv.2))) k = rowGet r k := by
  induction r with
  | nil => rfl
  | cons kv rest ih =>
    obtain ⟨k0, v0⟩ := kv
    by_cases hc : k0 = k
    · have hgk : g k0 = k := (hg k0).mpr hc
      simp only [List.map_cons, rowGet, if_pos hgk, if_pos hc]
    · have hgk : ¬(g k0 = k) := fun h => hc ((hg k0).mp h)
      simp only [List.map_cons, rowGet, if_neg hgk, if_neg hc]
      exact ih

lemma mapM_ok_mem {α β : Type} (f : α → Except Unit β) :
    ∀ (l : List α) (l2 : List β), l.mapM f = Except.ok l2 →
      ∀ b ∈ l2, ∃ a ∈ l, f a = Except.ok b := by
  intro l
  induction l with
  | nil =>
    intro l2 h b hb
    rw [List.mapM_nil, ex_pure] at h
    cases h
    simp at hb
  | cons a rest ih =>
    intro l2 h b hb
    rw [List.mapM_cons] at h
    cases hfa : f a with
    | error e =>
      cases e
      rw [hfa, ex_bind_error] at h
      cases h
    | ok b0 =>
      rw [hfa, ex_bind_ok] at h
      cases hrest : rest.mapM f with
      | error e =>
        cases e
        rw [hrest, ex_bind_error] at h
        cases h
      | ok bs =>
        rw [hrest, ex_bind_ok, ex_pure] at h
        cases h
        rcases List.mem_cons.mp hb with hb0 | hbs
        · exact ⟨a, List.mem_cons_self a rest, hb0 ▸ hfa⟩
        · rcases ih bs hrest b hbs with ⟨a2, ha2, hfa2⟩
          exact ⟨a2, List.mem_cons_of_mem a ha2, hfa2⟩

lemma selectCols_of_sub (df : DataFrame) (cs : List String) (h : ∀ c ∈ cs, c ∈ df.cols) :
    selectCols df cs = Except.ok
      { cols := cs, rows := df.rows.map (fun r => cs.map (fun c => (c, rowGet r c))) } := by
  rw [selectCols, if_pos h]

lemma selectCols_error (df : DataFrame) (cs : List String) (h : ¬∀ c ∈ cs, c ∈ df.cols) :
    selectCols df cs = Except.error () := by
  rw [selectCols, if_neg h]

lemma selectCols_ok_elim (df out : DataFrame) (cs : List String)
    (h : selectCols df cs = Except.ok out) :
    out.cols = cs ∧
      out.rows = df.rows.map (fun r => cs.map (fun c => (c, rowGet r c))) ∧
      ∀ c ∈ cs, c ∈ df.cols := by
  by_cases hc : ∀ c ∈ cs, c ∈ df.cols
  · rw [selectCols_of_sub df cs hc] at h
    cases h
    exact ⟨rfl, rfl, hc⟩
  · rw [selectCols_error df cs hc] at h
    cases h

lemma setCol_rows (df : DataFrame) (k : String) (v : Cell) :
    (setCol df k v).rows = df.rows.map (fun r => rowSet r k v) := rfl

lemma mem_setCol_cols (df : DataFrame) (k v c) :
    c ∈ (setCol df k (v : Cell)).cols ↔ c ∈ df.cols ∨ c = k := by
  rw [setCol]
  by_cases h : k ∈ df.cols
  · rw [if_pos h]
    constructor
    · exact Or.inl
    · rintro (hc | rfl)
      · exact hc
      · exact h
  · rw [if_neg h]
    simp [List.mem_append]

lemma setCol_cols_of_not_mem (df : DataFrame) (k : String) (v : Cell) (h : k ∉ df.cols) :
    (setCol df k v).cols = df.cols ++ [k] := by
  rw [setCol, if_neg h]

lemma convertTimestamp_ok_elim (df out : DataFrame) (h : convertTimestamp df = Except.ok out) :
    out.cols = df.cols ∧ df.rows.mapM convRow = Except.ok out.rows := by
  rw [convertTimestamp] at h
  by_cases hm : "timestamp" ∈ df.cols
  · rw [if_pos hm] at h
    cases hr : df.rows.mapM convRow with
    | error e =>
      cases e
      rw [hr, ex_map_error] at h
      cases h
    | ok rows =>
      rw [hr, ex_map_ok] at h
      cases h
      exact ⟨rfl, rfl⟩
  · rw [if_neg hm] at h
    cases h

lemma convertTimestamp_error_of_no_ts (df : DataFrame) (h : "timestamp" ∉ df.cols) :
    convertTimestamp df = Except.error () := by
  rw [convertTimestamp, if_neg h]

lemma convKV_ok_elim (kv kv2 : String × Cell) (h : convKV kv = Except.ok kv2) :
    kv2.1 = kv.1 ∧ (kv.1 ≠ "timestamp" → kv2.2 = kv.2) := by
  rw [convKV] at h
  by_cases ht : kv.1 = "timestamp"
  · rw [if_pos ht] at h
    cases htc : toDatetimeCell kv.2 with
    | error e =>
      cases e
      rw [htc, ex_map_error] at h
      cases h
    | ok cc =>
      rw [htc, ex_map_ok] at h
      cases h
      exact ⟨rfl, fun hcon => absurd ht hcon⟩
  · rw [if_neg ht] at h
    cases h
    exact ⟨rfl, fun _ => rfl⟩

lemma convRow_get (r r2 : List (String × Cell)) (h : convRow r = Except.ok r2) (c : String)
    (hc : c ≠ "timestamp") : rowGet r2 c = rowGet r c := by
  induction r generalizing r2 with
  | nil =>
    rw [convRow, List.mapM_nil, ex_pure] at h
    cases h
    rfl
  | cons kv rest ih =>
    rw [convRow, List.mapM_cons] at h
    cases hkv : convKV kv with
    | error e =>
      cases e
      rw [hkv, ex_bind_error] at h
      cases h
    | ok kv2 =>
      rw [hkv, ex_bind_ok] at h
      cases hrest : rest.mapM convKV with
      | error e =>
        cases e
        rw [hrest, ex_bind_error] at h
        cases h
      | ok rest2 =>
        rw [hrest, ex_bind_ok, ex_pure] at h
        cases h
        obtain ⟨hkey, hval⟩ := convKV_ok_elim kv kv2 hkv
        obtain ⟨k2, v2⟩ := kv2
        obtain ⟨k0, v0⟩ := kv
        simp only at hkey hval
        subst hkey
        by_cases h0 : k2 = c
        · have hne : k2 ≠ "timestamp" := by rw [h0]; exact hc
          rw [hval hne]
          simp only [rowGet]
          rw [if_pos h0, if_pos h0]
        · simp only [rowGet]
          rw [if_neg h0, if_neg h0]
          exact ih rest2 hrest

lemma addKey_not_mem (a : List String) (k c : String) (hc : c ∉ a) (hk : ¬(k = c)) :
    c ∉ addKey a k := by
  rw [addKey]
  by_cases h : k ∈ a
  · rw [if_pos h]
    exact hc
  · rw [if_neg h]
    intro hmem
    rcases List.mem_append.mp hmem with h1 | h1
    · exact hc h1
    · rw [List.mem_singleton] at h1
      exact hk h1.symm

lemma foldl_addKey_not_mem (kvs : List (String × Json)) (acc : List String) (c : String)
    (hacc : c ∉ acc) (hk : hasKey kvs c = false) :
    c ∉ kvs.foldl (fun a kv => addKey a kv.1) acc := by
  induction kvs generalizing acc with
  | nil => exact hacc
  | cons kv rest ih =>
    obtain ⟨k0, v0⟩ := kv
    rw [List.foldl_cons]
    simp only [hasKey] at hk
    by_cases hkc : k0 = c
    · rw [if_pos hkc] at hk
      cases hk
    · rw [if_neg hkc] at hk
      exact ih (addKey acc k0) (addKey_not_mem acc k0 c hacc hkc) hk

lemma addRecordKeys_not_mem (r : Json) (acc : List String) (c : String)
    (hacc : c ∉ acc) (hr : recordHasField r c = false) :
    c ∉ addRecordKeys acc r := by
  cases r with
  | obj kvs =>
    simp only [recordHasField] at hr
    exact foldl_addKey_not_mem kvs acc c hacc hr
  | null => exact hacc
  | num n => exact hacc
  | str s => exact hacc
  | arr xs => exact hacc

lemma recordKeys_not_mem (rs : List Json) (c : String)
    (h : ∀ r ∈ rs, recordHasField r c = false) : c ∉ recordKeys rs := by
  rw [recordKeys]
  have haux : ∀ (l : List Json) (acc : List String), c ∉ acc →
      (∀ r ∈ l, recordHasField r c = false) → c ∉ l.foldl addRecordKeys acc := by
    intro l
    induction l with
    | nil => intro acc hacc _; exact hacc
    | cons r rest ih =>
      intro acc hacc hl
      rw [List.foldl_cons]
      exact ih (addRecordKeys acc r)
        (addRecordKeys_not_mem r acc c hacc (hl r (List.mem_cons_self r rest)))
        (fun x hx => hl x (List.mem_cons_of_mem r hx))
  exact haux rs [] (List.not_mem_nil c) h

lemma pdDataFrameOfRecords_ok_elim (j : Json) (df : DataFrame)
    (h : pdDataFrameOfRecords j = Except.ok df) :
    ∃ rs, j = Json.arr rs ∧ df.cols = recordKeys rs ∧ df.rows = rs.map recordToRow := by
  cases j with
  | arr rs =>
    rw [pdDataFrameOfRecords] at h
    by_cases ha : allObjs rs
    · rw [if_pos ha] at h
      cases h
      exact ⟨rs, rfl, rfl, rfl⟩
    · rw [if_neg ha] at h
      cases h
  | null => cases h
  | num n => cases h
  | str s => cases h
  | obj kvs => cases h

lemma buildTickerDF_ok_elim (e : Json) (t : String) (out : DataFrame)
    (h : buildTickerDF e t = Except.ok out) :
    ∃ df0 df2, pdDataFrameOfRecords e = Except.ok df0 ∧
      convertTimestamp (setCol df0 "ticker" (Cell.json (Json.str t))) = Except.ok df2 ∧
      selectCols df2 columnsToKeep = Except.ok out := by
  cases h0 : pdDataFrameOfRecords e with
  | error e0 =>
    cases e0
    simp only [buildTickerDF, h0, ex_bind_error] at h
    cases h
  | ok df0 =>
    simp only [buildTickerDF, h0, ex_bind_ok] at h
    cases h2 : convertTimestamp (setCol df0 "ticker" (Cell.json (Json.str t))) with
    | error e2 =>
      cases e2
      rw [h2, ex_bind_error] at h
      cases h
    | ok df2 =>
      rw [h2, ex_bind_ok] at h
      exact ⟨df0, df2, rfl, h2, h⟩

lemma processBody_success_elim (data : Json) (t : String) (df : DataFrame)
    (h : processBody data t = BodyOutcome.success df) :
    ∃ e, extractSeries data = Except.ok e ∧ buildTickerDF e t = Except.ok df := by
  cases hs : shapeCheck data with
  | error e0 =>
    cases e0
    simp only [processBody, hs] at h
    cases h
  | ok b =>
    cases b with
    | false =>
      simp only [processBody, hs] at h
      cases h
    | true =>
      simp only [processBody, hs] at h
      cases he : extractSeries data with
      | error e1 =>
        cases e1
        rw [he, ex_bind_error] at h
        cases h
      | ok e =>
        rw [he, ex_bind_ok] at h
        cases hb : buildTickerDF e t with
        | error e2 =>
          cases e2
          rw [hb] at h
          cases h
        | ok df0 =>
          rw [hb] at h
          cases h
          exact ⟨e, rfl, hb⟩

lemma classify_success_elim (resp : FetchResult) (t : String) (df : DataFrame)
    (h : classify resp t = TickerOutcome.success df) :
    ∃ code data, resp = FetchResult.response code (Except.ok data) ∧
      respOk code ∧ processBody data t = BodyOutcome.success df := by
  cases resp with
  | netError => cases h
  | response code body =>
    by_cases hok : respOk code
    · cases body with
      | error e0 =>
        cases e0
        simp only [classify, if_pos hok] at h
        cases h
      | ok data =>
        simp only [classify, if_pos hok] at h
        cases hp : processBody data t with
        | success df0 =>
          rw [hp] at h
          cases h
          exact ⟨code, data, rfl, hok, hp⟩
        | noData =>
          rw [hp] at h
          cases h
        | raised =>
          rw [hp] at h
          cases h
    · simp only [classify, if_neg hok] at h
      by_cases h429 : code = 429
      · rw [if_pos h429] at h
        cases h
      · rw [if_neg h429] at h
        cases h

lemma successDF_eq_some (resp : FetchResult) (t : String) (df : DataFrame) :
    successDF resp t = some df ↔ classify resp t = TickerOutcome.success df := by
  cases hc : classify resp t with
  | success df0 => simp [successDF, hc]
  | failure => simp [successDF, hc]
  | rateLimited => simp [successDF, hc]

lemma producedData_mem (responses : String → FetchResult) :
    ∀ (ts : List String) (df : DataFrame), df ∈ producedData responses ts →
      ∃ t ∈ ts, classify (responses t) t = TickerOutcome.success df := by
  intro ts
  induction ts with
  | nil =>
    intro df h
    simp [producedData] at h
  | cons t rest ih =>
    intro df h
    rw [producedData] at h
    rcases List.mem_append.mp h with h1 | h1
    · cases hs : successDF (responses t) t with
      | none =>
        rw [hs] at h1
        simp [Option.toList] at h1
      | some df0 =>
        rw [hs] at h1
        simp only [Option.toList, List.mem_singleton] at h1
        subst h1
        exact ⟨t, List.mem_cons_self t rest, (successDF_eq_some _ _ _).mp hs⟩
    · rcases ih df h1 with ⟨t2, ht2, hc⟩
      exact ⟨t2, List.mem_cons_of_mem t ht2, hc⟩

lemma stepTicker_all_data (responses : String → FetchResult) (delay : Nat) (rand : Nat → Nat)
    (st : FetchState) (i : Nat) (t : String) :
    (stepTicker responses delay rand st i t).all_data =
      st.all_data ++ (successDF (responses t) t).toList := by
  cases hc : classify (responses t) t with
  | success df => simp [stepTicker, hc, successDF]
  | failure => simp [stepTicker, hc, successDF]
  | rateLimited => simp [stepTicker, hc, successDF]

lemma stepTicker_successful (responses : String → FetchResult) (delay : Nat) (rand : Nat → Nat)
    (st : FetchState) (i : Nat) (t : String) :
    (stepTicker responses delay rand st i t).successful_tickers =
      st.successful_tickers + (successDF (responses t) t).toList.length := by
  cases hc : classify (responses t) t with
  | success df => simp [stepTicker, hc, successDF]
  | failure => simp [stepTicker, hc, successDF]
  | rateLimited => simp [stepTicker, hc, successDF]

lemma stepTicker_requests (responses : String → FetchResult) (delay : Nat) (rand : Nat → Nat)
    (st : FetchState) (i : Nat) (t : String) :
    (stepTicker responses delay rand st i t).requests = st.requests ++ [t] := by
  cases hc : classify (responses t) t with
  | success df => simp [stepTicker, hc]
  | failure => simp [stepTicker, hc]
  | rateLimited => simp [stepTicker, hc]

lemma runLoop_all_data (responses : String → FetchResult) (delay : Nat) (rand : Nat → Nat) :
    ∀ (ts : List String) (st : FetchState) (i : Nat),
      (runLoop responses delay rand st i ts).all_data =
        st.all_data ++ producedData responses ts := by
  intro ts
  induction ts with
  | nil =>
    intro st i
    simp [runLoop, producedData]
  | cons t rest ih =>
    intro st i
    rw [runLoop, ih, stepTicker_all_data, producedData, List.append_assoc]

lemma runLoop_successful (responses : String → FetchResult) (delay : Nat) (rand : Nat → Nat) :
    ∀ (ts : List String) (st : FetchState) (i : Nat),
      (runLoop responses delay rand st i ts).successful_tickers =
        st.successful_tickers + (producedData responses ts).length := by
  intro ts
  induction ts with
  | nil =>
    intro st i
    simp [runLoop, producedData]
  | cons t rest ih =>
    intro st i
    rw [runLoop, ih, stepTicker_successful, producedData, List.length_append,
      Nat.add_assoc]

lemma runLoop_requests (responses : String → FetchResult) (delay : Nat) (rand : Nat → Nat) :
    ∀ (ts : List String) (st : FetchState) (i : Nat),
      (runLoop responses delay rand st i ts).requests = st.requests ++ ts := by
  intro ts
  induction ts with
  | nil =>
    intro st i
    simp [runLoop]
  | cons t rest ih =>
    intro st i
    rw [runLoop, ih, stepTicker_requests, List.append_assoc, List.singleton_append]

lemma column_mapping_eq_ticker (c : String) : column_mapping c = "ticker" ↔ c = "ticker" := by
  constructor
  · intro h
    rw [column_mapping] at h
    by_cases h1 : c = "esgScore"
    · rw [if_pos h1] at h
      exact absurd h (by decide)
    · rw [if_neg h1] at h
      by_cases h2 : c = "governanceScore"
      · rw [if_pos h2] at h
        exact absurd h (by decide)
      · rw [if_neg h2] at h
        by_cases h3 : c = "environmentScore"
        · rw [if_pos h3] at h
          exact absurd h (by decide)
        · rw [if_neg h3] at h
          by_cases h4 : c = "socialScore"
          · rw [if_pos h4] at h
            exact absurd h (by decide)
          · rw [if_neg h4] at h
            exact h
  · intro h
    subst h
    rfl

lemma renameCols_cols (df : DataFrame) :
    (renameCols df).cols = df.cols.map column_mapping := rfl

lemma renameCols_rows (df : DataFrame) :
    (renameCols df).rows = df.rows.map (fun r => r.map (fun kv => (column_mapping kv.1, kv.2))) :=
  rfl

lemma rowGet_renamed_ticker (r : List (String × Cell)) :
    rowGet (r.map (fun kv => (column_mapping kv.1, kv.2))) "ticker" = rowGet r "ticker" :=
  rowGet_mapKeys column_mapping r "ticker" column_mapping_eq_ticker

lemma format_esg_data_empty (df : DataFrame) (today : String) (h : df.rows = []) :
    format_esg_data df today = Except.ok df := by
  rw [format_esg_data, if_pos]
  rw [h]
  rfl

lemma format_esg_data_nonempty (df : DataFrame) (today : String) (h : df.rows ≠ []) :
    format_esg_data df today =
      selectCols (formattedFrame df today) (formatTargetCols df today) := by
  rw [format_esg_data, if_neg]
  intro hcon
  exact h (List.isEmpty_iff.mp hcon)

lemma formattedFrame_cols_indep (df : DataFrame) (t1 t2 : String) :
    (formattedFrame df t1).cols = (formattedFrame df t2).cols := rfl

lemma formatTargetCols_indep (df : DataFrame) (t1 t2 : String) :
    formatTargetCols df t1 = formatTargetCols df t2 := rfl

lemma lpd_mem_formatTargetCols (df : DataFrame) (today : String) :
    "last_processing_date" ∈ formatTargetCols df today := by
  rw [formatTargetCols]
  simp

lemma ticker_mem_formatTargetCols (df : DataFrame) (today : String) :
    "ticker" ∈ formatTargetCols df today := by
  rw [formatTargetCols]
  simp

lemma format_ok_lpd (df out : DataFrame) (today : String)
    (h : format_esg_data df today = Except.ok out) :
    ∀ r ∈ out.rows, rowGet r "last_processing_date" = Cell.json (Json.str today) := by
  by_cases hr : df.rows = []
  · rw [format_esg_data_empty df today hr] at h
    cases h
    rw [hr]
    intro r hmem
    cases hmem
  · rw [format_esg_data_nonempty df today hr] at h
    obtain ⟨hcols, hrows, hsub⟩ := selectCols_ok_elim _ _ _ h
    intro r hmem
    rw [hrows] at hmem
    obtain ⟨r2, hr2, rfl⟩ := List.mem_map.mp hmem
    rw [rowGet_projRow, if_pos (lpd_mem_formatTargetCols df today)]
    rw [formattedFrame, setCol_rows] at hr2
    obtain ⟨r3, hr3, rfl⟩ := List.mem_map.mp hr2
    exact rowGet_rowSet_self r3 "last_processing_date" (Cell.json (Json.str today))

lemma format_ok_ticker_pres (df out : DataFrame) (today : String)
    (h : format_esg_data df today = Except.ok out) :
    ∀ r ∈ out.rows, ∃ r0 ∈ df.rows, rowGet r "ticker" = rowGet r0 "ticker" := by
  by_cases hr : df.rows = []
  · rw [format_esg_data_empty df today hr] at h
    cases h
    intro r hmem
    exact ⟨r, hmem, rfl⟩
  · rw [format_esg_data_nonempty df today hr] at h
    obtain ⟨hcols, hrows, hsub⟩ := selectCols_ok_elim _ _ _ h
    intro r hmem
    rw [hrows] at hmem
    obtain ⟨r2, hr2, rfl⟩ := List.mem_map.mp hmem
    rw [rowGet_projRow, if_pos (ticker_mem_formatTargetCols df today)]
    rw [formattedFrame, setCol_rows] at hr2
    obtain ⟨r3, hr3, rfl⟩ := List.mem_map.mp hr2
    rw [renameCols_rows] at hr3
    obtain ⟨r0, hr0, rfl⟩ := List.mem_map.mp hr3
    refine ⟨r0, hr0, ?_⟩
    rw [rowGet_rowSet_ne _ _ _ _ (by decide), rowGet_renamed_ticker]

lemma fetch_df_eq (tickers : List String) (responses : String → FetchResult)
    (delay : Nat) (rand : Nat → Nat) :
    (fetch_historical_esg tickers responses delay rand).df =
      if (producedData responses tickers).isEmpty then
        { cols := emptyFallbackColumns, rows := [] }
      else concatDFs (producedData responses tickers) := by
  simp only [fetch_historical_esg, runLoop_all_data, initialState, List.nil_append]

lemma fetch_successful_eq (tickers : List String) (responses : String → FetchResult)
    (delay : Nat) (rand : Nat → Nat) :
    (fetch_historical_esg tickers responses delay rand).successful_tickers =
      (producedData responses tickers).length := by
  simp only [fetch_historical_esg, runLoop_successful, initialState, Nat.zero_add]

lemma fetch_requests_eq (tickers : List String) (responses : String → FetchResult)
    (delay : Nat) (rand : Nat → Nat) :
    (fetch_historical_esg tickers responses delay rand).requests = tickers := by
  simp only [fetch_historical_esg, runLoop_requests, initialState, List.nil_append]

lemma concatDFs_rows (dfs : List DataFrame) :
    (concatDFs dfs).rows = (dfs.map (fun d => d.rows)).flatten := rfl

lemma mem_concatDFs_rows (dfs : List DataFrame) (r : List (String × Cell))
    (h : r ∈ (concatDFs dfs).rows) : ∃ d ∈ dfs, r ∈ d.rows := by
  rw [concatDFs_rows] at h
  simp only [List.mem_flatten, List.mem_map] at h
  obtain ⟨rows, ⟨d, hd, rfl⟩, hr⟩ := h
  exact ⟨d, hd, hr⟩

lemma concatDFs_cols_of_head (dfs : List DataFrame) (cs : List String)
    (hne : dfs ≠ []) (h : ∀ d ∈ dfs, d.cols = cs) : (concatDFs dfs).cols = cs := by
  cases dfs with
  | nil => exact absurd rfl hne
  | cons d rest => exact h d (List.mem_cons_self d rest)

lemma classify_success_cols (resp : FetchResult) (t : String) (df : DataFrame)
    (h : classify resp t = TickerOutcome.success df) : df.cols = columnsToKeep := by
  obtain ⟨code, data, -, -, hp⟩ := classify_success_elim resp t df h
  obtain ⟨e, -, hb⟩ := processBody_success_elim data t df hp
  obtain ⟨df0, df2, -, -, hsel⟩ := buildTickerDF_ok_elim e t df hb
  exact (selectCols_ok_elim _ _ _ hsel).1

lemma classify_success_ticker (resp : FetchResult) (t : String) (df : DataFrame)
    (h : classify resp t = TickerOutcome.success df) :
    ∀ r ∈ df.rows, rowGet r "ticker" = Cell.json (Json.str t) := by
  obtain ⟨code, data, -, -, hp⟩ := classify_success_elim resp t df h
  obtain ⟨e, -, hb⟩ := processBody_success_elim data t df hp
  obtain ⟨df0, df2, h0, h2, hsel⟩ := buildTickerDF_ok_elim e t df hb
  obtain ⟨hcols, hrows, hsub⟩ := selectCols_ok_elim _ _ _ hsel
  intro r hmem
  rw [hrows] at hmem
  obtain ⟨r2, hr2, rfl⟩ := List.mem_map.mp hmem
  rw [rowGet_projRow, if_pos (by decide : "ticker" ∈ columnsToKeep)]
  obtain ⟨hc2, hm2⟩ := convertTimestamp_ok_elim _ _ h2
  obtain ⟨r1, hr1, hcr⟩ := mapM_ok_mem convRow _ _ hm2 r2 hr2
  rw [convRow_get r1 r2 hcr "ticker" (by decide)]
  rw [setCol_rows] at hr1
  obtain ⟨r0, hr0, rfl⟩ := List.mem_map.mp hr1
  exact rowGet_rowSet_self r0 "ticker" (Cell.json (Json.str t))

lemma fetched_rows_ticker (tickers : List String) (responses : String → FetchResult)
    (delay : Nat) (rand : Nat → Nat) :
    ∀ r ∈ (fetch_historical_esg tickers responses delay rand).df.rows,
      ∃ t ∈ tickers, rowGet r "ticker" = Cell.json (Json.str t) := by
  intro r hmem
  rw [fetch_df_eq] at hmem
  by_cases hp : (producedData responses tickers).isEmpty
  · rw [if_pos hp] at hmem
    cases hmem
  · rw [if_neg hp] at hmem
    obtain ⟨d, hd, hr⟩ := mem_concatDFs_rows _ r hmem
    obtain ⟨t, ht, hc⟩ := producedData_mem responses tickers d hd
    exact ⟨t, ht, classify_success_ticker _ t d hc r hr⟩

lemma fetched_cols_of_nonempty (tickers : List String) (responses : String → FetchResult)
    (delay : Nat) (rand : Nat → Nat)
    (h : (fetch_historical_esg tickers responses delay rand).df.rows ≠ []) :
    (fetch_historical_esg tickers responses delay rand).df.cols = columnsToKeep := by
  rw [fetch_df_eq] at h ⊢
  by_cases hp : (producedData responses tickers).isEmpty
  · rw [if_pos hp] at h
    exact absurd rfl h
  · rw [if_neg hp] at h ⊢
    refine concatDFs_cols_of_head _ _ (fun hcon => hp (by rw [hcon]; rfl)) ?_
    intro d hd
    obtain ⟨t, -, hc⟩ := producedData_mem responses tickers d hd
    exact classify_success_cols _ t d hc

lemma formattedFrame_cols_of_keep (df : DataFrame) (today : String)
    (hc : df.cols = columnsToKeep) :
    (formattedFrame df today).cols =
      ["timestamp", "ticker", "total_score", "governance_score",
       "environment_score", "social_score", "last_processing_date"] := by
  have h1 : (renameCols df).cols =
      ["timestamp", "ticker", "total_score", "governance_score",
       "environment_score", "social_score"] := by
    rw [renameCols_cols, hc]
    rfl
  rw [formattedFrame, setCol_cols_of_not_mem _ _ _ (by rw [h1]; decide), h1]
  rfl

lemma formatTargetCols_of_keep (df : DataFrame) (today : String)
    (hc : df.cols = columnsToKeep) :
    formatTargetCols df today = emptyFallbackColumns := by
  rw [formatTargetCols, formattedFrame_cols_of_keep df today hc]
  rfl

lemma format_of_keep (df : DataFrame) (today : String)
    (hc : df.cols = columnsToKeep) (hr : df.rows ≠ []) :
    ∃ out, format_esg_data df today = Except.ok out ∧ out.cols = emptyFallbackColumns := by
  rw [format_esg_data_nonempty df today hr, formatTargetCols_of_keep df today hc]
  have hsub : ∀ c ∈ emptyFallbackColumns, c ∈ (formattedFrame df today).cols := by
    rw [formattedFrame_cols_of_keep df today hc]
    decide
  rw [selectCols_of_sub _ _ hsub]
  exact ⟨_, rfl, rfl⟩

lemma stepTicker_failure (responses : String → FetchResult) (delay : Nat) (rand : Nat → Nat)
    (st : FetchState) (i : Nat) (t : String)
    (hcl : classify (responses t) t = TickerOutcome.failure) :
    stepTicker responses delay rand st i t =
      { st with sleeps := st.sleeps ++ [delay + rand i],
                requests := st.requests ++ [t],
                failed_tickers := st.failed_tickers + 1 } := by
  simp [stepTicker, hcl]

lemma stepTicker_rateLimited (responses : String → FetchResult) (delay : Nat) (rand : Nat → Nat)
    (st : FetchState) (i : Nat) (t : String)
    (hcl : classify (responses t) t = TickerOutcome.rateLimited) :
    stepTicker responses delay rand st i t =
      { st with sleeps := st.sleeps ++ [delay + rand i, 10],
                requests := st.requests ++ [t] } := by
  simp [stepTicker, hcl]

lemma classify_429 (body : Except Unit Json) (t : String) :
    classify (FetchResult.response 429 body) t = TickerOutcome.rateLimited := by
  simp [classify, respOk]

lemma classify_of_processBody (code : Nat) (data : Json) (t : String) (hok : respOk code) :
    classify (FetchResult.response code (Except.ok data)) t =
      match processBody data t with
      | .success df => TickerOutcome.success df
      | .noData => TickerOutcome.failure
      | .raised => TickerOutcome.failure := by
  simp only [classify, if_pos hok]

lemma processBody_noData (data : Json) (t : String)
    (hshape : shapeCheck data = Except.ok false) : processBody data t = BodyOutcome.noData := by
  simp only [processBody, hshape]

lemma processBody_raised_of_extract_error (data : Json) (t : String)
    (hshape : shapeCheck data = Except.ok true)
    (hext : extractSeries data = Except.error ()) : processBody data t = BodyOutcome.raised := by
  simp only [processBody, hshape, hext, ex_bind_error]

lemma processBody_raised_of_build_error (data e : Json) (t : String)
    (hshape : shapeCheck data = Except.ok true)
    (hext : extractSeries data = Except.ok e)
    (hb : buildTickerDF e t = Except.error ()) : processBody data t = BodyOutcome.raised := by
  simp only [processBody, hshape, hext, ex_bind_ok, hb]

lemma objGet_some_hasKey (kvs : List (String × Json)) (key : String) (v : Json)
    (h : objGet kvs key = some v) : hasKey kvs key = true := by
  induction kvs with
  | nil => cases h
  | cons kv rest ih =>
    obtain ⟨k0, v0⟩ := kv
    rw [objGet] at h
    rw [hasKey]
    by_cases hk : k0 = key
    · rw [if_pos hk]
    · rw [if_neg hk] at h
      rw [if_neg hk]
      exact ih h

lemma pySubscript_ok_elim (j : Json) (key : String) (v : Json)
    (h : pySubscript j key = Except.ok v) :
    ∃ kvs, j = Json.obj kvs ∧ objGet kvs key = some v := by
  cases j with
  | obj kvs =>
    rw [pySubscript] at h
    cases hg : objGet kvs key with
    | none =>
      rw [hg] at h
      cases h
    | some v0 =>
      rw [hg] at h
      cases h
      exact ⟨kvs, rfl, hg⟩
  | null => cases h
  | num n => cases h
  | str s => cases h
  | arr xs => cases h

lemma shapeCheck_true_of_subscripts (data a b : Json)
    (h1 : pySubscript data "esgChart" = Except.ok a)
    (h2 : pySubscript a "result" = Except.ok b) :
    shapeCheck data = Except.ok true := by
  obtain ⟨kvs, rfl, hget⟩ := pySubscript_ok_elim data "esgChart" a h1
  obtain ⟨kvs2, ha, hget2⟩ := pySubscript_ok_elim a "result" b h2
  have hk1 : hasKey kvs "esgChart" = true := objGet_some_hasKey kvs "esgChart" a hget
  have hk2 : hasKey kvs2 "result" = true := objGet_some_hasKey kvs2 "result" b hget2
  rw [shapeCheck]
  simp only [pyIn, hk1, ex_bind_ok, if_pos]
  rw [h1, ex_bind_ok, ha]
  simp only [pyIn, hk2]

lemma extractSeries_ok_elim (data e : Json) (h : extractSeries data = Except.ok e) :
    ∃ a b c, pySubscript data "esgChart" = Except.ok a ∧
      pySubscript a "result" = Except.ok b ∧ pyFirst b = Except.ok c ∧
      pySubscript c "symbolSeries" = Except.ok e := by
  rw [extractSeries] at h
  cases h1 : pySubscript data "esgChart" with
  | error e1 =>
    cases e1
    rw [h1, ex_bind_error] at h
    cases h
  | ok a =>
    rw [h1, ex_bind_ok] at h
    cases h2 : pySubscript a "result" with
    | error e2 =>
      cases e2
      rw [h2, ex_bind_error] at h
      cases h
    | ok b =>
      rw [h2, ex_bind_ok] at h
      cases h3 : pyFirst b with
      | error e3 =>
        cases e3
        rw [h3, ex_bind_error] at h
        cases h
      | ok c =>
        rw [h3, ex_bind_ok] at h
        exact ⟨a, b, c, rfl, h2, h3, h⟩

lemma extractSeries_error_of_empty_result (data a : Json)
    (h1 : pySubscript data "esgChart" = Except.ok a)
    (h2 : pySubscript a "result" = Except.ok (Json.arr [])) :
    extractSeries data = Except.error () := by
  rw [extractSeries, h1, ex_bind_ok, h2, ex_bind_ok]
  rfl

lemma buildTickerDF_error_of_missing_score (rs : List Json) (t sc : String)
    (hsc : sc ∈ ["esgScore", "governanceScore", "environmentScore", "socialScore"])
    (habs : ∀ r ∈ rs, recordHasField r sc = false) :
    buildTickerDF (Json.arr rs) t = Except.error () := by
  have hsc_ne_ticker : ¬(sc = "ticker") := by
    fin_cases hsc <;> decide
  have hsc_keep : sc ∈ columnsToKeep := by
    fin_cases hsc <;> decide
  by_cases ha : allObjs rs
  · have h0 : pdDataFrameOfRecords (Json.arr rs) =
        Except.ok { cols := recordKeys rs, rows := rs.map recordToRow } := by
      rw [pdDataFrameOfRecords, if_pos ha]
    have hscnot : sc ∉ recordKeys rs := recordKeys_not_mem rs sc habs
    have h1 : sc ∉ (setCol { cols := recordKeys rs, rows := rs.map recordToRow }
        "ticker" (Cell.json (Json.str t))).cols := by
      intro hmem
      rcases (mem_setCol_cols _ _ _ _).mp hmem with hm | hm
      · exact hscnot hm
      · exact hsc_ne_ticker hm
    cases h2 : convertTimestamp (setCol { cols := recordKeys rs, rows := rs.map recordToRow }
        "ticker" (Cell.json (Json.str t))) with
    | error e2 =>
      cases e2
      simp only [buildTickerDF, h0, ex_bind_ok, h2, ex_bind_error]
    | ok df2 =>
      have hcols2 := (convertTimestamp_ok_elim _ _ h2).1
      have hnot : ¬∀ c ∈ columnsToKeep, c ∈ df2.cols := by
        intro hall
        exact h1 (hcols2 ▸ hall sc hsc_keep)
      simp only [buildTickerDF, h0, ex_bind_ok, h2, selectCols_error _ _ hnot]
  · have h0 : pdDataFrameOfRecords (Json.arr rs) = Except.error () := by
      rw [pdDataFrameOfRecords, if_neg ha]
    simp only [buildTickerDF, h0, ex_bind_error]

lemma projRow_filter (cs : List String) (f : String → Cell) (k : String) :
    (cs.map (fun c => (c, f c))).filter (fun kv => kv.1 ≠ k) =
      (cs.filter (fun c => c ≠ k)).map (fun c => (c, f c)) := by
  induction cs with
  | nil => rfl
  | cons c rest ih =>
    simp only [ne_eq, decide_not] at ih
    by_cases hc : c = k
    · simp [List.filter_cons, hc, ih]
    · simp [List.filter_cons, hc, ih]

lemma dropped_proj_row (cs : List String) (q : List (String × Cell)) (v : Cell) :
    ((cs.map (fun c => (c, rowGet (rowSet q "last_processing_date" v) c))).filter
        (fun kv => kv.1 ≠ "last_processing_date")) =
      (cs.filter (fun c => c ≠ "last_processing_date")).map (fun c => (c, rowGet q c)) := by
  rw [projRow_filter]
  apply List.map_congr_left
  intro c hc
  have hne : c ≠ "last_processing_date" := by
    have := (List.mem_filter.mp hc).2
    simpa using this
  rw [rowGet_rowSet_ne _ _ _ _ hne]

lemma dropCol_formatted (df : DataFrame) (cs : List String) (t : String) :
    dropCol { cols := cs,
              rows := (formattedFrame df t).rows.map
                (fun r => cs.map (fun c => (c, rowGet r c))) }
        "last_processing_date" =
      { cols := cs.filter (fun c => c ≠ "last_processing_date"),
        rows := (renameCols df).rows.map
          (fun q => (cs.filter
              (fun c => c ≠ "last_processing_date")).map (fun c => (c, rowGet q c))) } := by
  rw [dropCol]
  congr 1
  rw [formattedFrame, setCol_rows, List.map_map, List.map_map]
  apply List.map_congr_left
  intro q hq
  exact dropped_proj_row cs q (Cell.json (Json.str t))

lemma format_dropCol_lpd (df : DataFrame) (t1 t2 : String) :
    (format_esg_data df t1).map (fun d => dropCol d "last_processing_date") =
      (format_esg_data df t2).map (fun d => dropCol d "last_processing_date") := by
  by_cases hr : df.rows = []
  · rw [format_esg_data_empty df t1 hr, format_esg_data_empty df t2 hr]
  · rw [format_esg_data_nonempty df t1 hr, format_esg_data_nonempty df t2 hr,
      formatTargetCols_indep df t2 t1]
    by_cases hsub : ∀ c ∈ formatTargetCols df t1, c ∈ (formattedFrame df t1).cols
    · have hsub2 : ∀ c ∈ formatTargetCols df t1, c ∈ (formattedFrame df t2).cols := by
        rw [← formattedFrame_cols_indep df t1 t2]
        exact hsub
      rw [selectCols_of_sub _ _ hsub, selectCols_of_sub _ _ hsub2, ex_map_ok, ex_map_ok,
        dropCol_formatted df (formatTargetCols df t1) t1,
        dropCol_formatted df (formatTargetCols df t1) t2]
    · have hsub2 : ¬∀ c ∈ formatTargetCols df t1, c ∈ (formattedFrame df t2).cols := by
        rw [← formattedFrame_cols_indep df t1 t2]
        exact hsub
      rw [selectCols_error _ _ hsub, selectCols_error _ _ hsub2]

lemma fetch_df_rand_indep (tickers : List String) (responses : String → FetchResult)
    (delay : Nat) (r1 r2 : Nat → Nat) :
    (fetch_historical_esg tickers responses delay r1).df =
      (fetch_historical_esg tickers responses delay r2).df := by
  rw [fetch_df_eq, fetch_df_eq]

/-! The claim theorems. -/

/-- Claim C3: for the single input ticker "AAA" and a 2xx response whose
JSON body is the nested esgChart/result/symbolSeries record with
timestamp 1609459200, esgScore 45, governanceScore 40, environmentScore 50
and socialScore 46, the fetched-then-formatted output contains exactly one
row with ticker AAA, timestamp 2021-01-01T00:00:00, total_score 45,
governance_score 40, environment_score 50 and social_score 46 (for any
pacing delay, ambient randomness and processing date). -/
theorem C3_single_ticker_pipeline (delay : Nat) (rand : Nat → Nat) (today : String) :
    format_esg_data (fetch_historical_esg ["AAA"]
        (fun _ => FetchResult.response 200 (Except.ok (Json.obj [("esgChart",
          Json.obj [("result", Json.arr [Json.obj [("symbolSeries", Json.arr [Json.obj
            [("timestamp", Json.num 1609459200), ("esgScore", Json.num 45),
             ("governanceScore", Json.num 40), ("environmentScore", Json.num 50),
             ("socialScore", Json.num 46)]])]])])]))) delay rand).df today =
      Except.ok
        { cols := ["ticker", "timestamp", "last_processing_date", "total_score",
                   "environment_score", "social_score", "governance_score"],
          rows := [[("ticker", Cell.json (Json.str "AAA")),
                    ("timestamp", Cell.time
                      { year := 2021, month := 1, day := 1,
                        hour := 0, minute := 0, second := 0 }),
                    ("last_processing_date", Cell.json (Json.str today)),
                    ("total_score", Cell.json (Json.num 45)),
                    ("environment_score", Cell.json (Json.num 50)),
                    ("social_score", Cell.json (Json.num 46)),
                    ("governance_score", Cell.json (Json.num 40))]] } := rfl

/-- Claim C1, counterexample: the claim asserts the empty fallback table's
column set is different from the post-formatting schema {ticker, timestamp,
last_processing_date, total_score, environment_score, social_score,
governance_score}; in fact, on a run in which zero tickers succeed, the
returned empty table's columns are exactly that schema, in that order. -/
theorem C1_counterexample :
    (fetch_historical_esg ["AAA"]
        (fun _ => FetchResult.response 500 (Except.error ())) 2 (fun _ => 0)).df.cols =
      ["ticker", "timestamp", "last_processing_date", "total_score",
       "environment_score", "social_score", "governance_score"] := rfl

/-- Claim C1, amended: if zero tickers succeed, `fetch_historical_esg`
returns an empty table whose predefined column set coincides with the full
post-formatting schema {ticker, timestamp, last_processing_date,
total_score, environment_score, social_score, governance_score} (it is not
different from it), and formatting that empty table is a no-op that
returns it unchanged. -/
theorem C1_empty_run_schema (tickers : List String) (responses : String → FetchResult)
    (delay : Nat) (rand : Nat → Nat) (today : String)
    (h : (fetch_historical_esg tickers responses delay rand).successful_tickers = 0) :
    (fetch_historical_esg tickers responses delay rand).df =
      { cols := emptyFallbackColumns, rows := [] } ∧
    emptyFallbackColumns =
      ["ticker", "timestamp", "last_processing_date"] ++ scoreColumnOrder ∧
    format_esg_data (fetch_historical_esg tickers responses delay rand).df today =
      Except.ok ((fetch_historical_esg tickers responses delay rand).df) := by
  rw [fetch_successful_eq] at h
  have hemp : producedData responses tickers = [] := List.length_eq_zero.mp h
  have hdf : (fetch_historical_esg tickers responses delay rand).df =
      { cols := emptyFallbackColumns, rows := [] } := by
    rw [fetch_df_eq, hemp]
    rfl
  refine ⟨hdf, rfl, ?_⟩
  rw [hdf]
  exact format_esg_data_empty _ today rfl

/-- Witness for C1_empty_run_schema at a concrete failing run. -/
theorem C1_empty_run_schema_witness :
    (fetch_historical_esg ["AAA"]
        (fun _ => FetchResult.response 500 (Except.error ())) 2 (fun _ => 0)).df =
      { cols := emptyFallbackColumns, rows := [] } ∧
    emptyFallbackColumns =
      ["ticker", "timestamp", "last_processing_date"] ++ scoreColumnOrder ∧
    format_esg_data (fetch_historical_esg ["AAA"]
        (fun _ => FetchResult.response 500 (Except.error ())) 2 (fun _ => 0)).df "2025-10-12" =
      Except.ok ((fetch_historical_esg ["AAA"]
        (fun _ => FetchResult.response 500 (Except.error ())) 2 (fun _ => 0)).df) :=
  C1_empty_run_schema ["AAA"] (fun _ => FetchResult.response 500 (Except.error ())) 2
    (fun _ => 0) "2025-10-12" rfl

/-- Claim C2: for every non-empty fetched table, the columns after
`format_esg_data` are {ticker, timestamp, last_processing_date} followed by
the score columns present after renaming, in the fixed order — and since a
fetched table always carries all four raw score columns, this equals the
full schema {ticker, timestamp, last_processing_date, total_score,
environment_score, social_score, governance_score}. -/
theorem C2_formatted_schema (tickers : List String) (responses : String → FetchResult)
    (delay : Nat) (rand : Nat → Nat) (today : String)
    (h : (fetch_historical_esg tickers responses delay rand).df.rows ≠ []) :
    ∃ out, format_esg_data (fetch_historical_esg tickers responses delay rand).df today =
        Except.ok out ∧
      out.cols = ["ticker", "timestamp", "last_processing_date"] ++
        scoreColumnOrder.filter (fun c =>
          c ∈ (formattedFrame (fetch_historical_esg tickers responses delay rand).df
            today).cols) ∧
      out.cols = emptyFallbackColumns := by
  have hc := fetched_cols_of_nonempty tickers responses delay rand h
  obtain ⟨out, hfmt, hcols⟩ := format_of_keep _ today hc h
  refine ⟨out, hfmt, ?_, hcols⟩
  exact hcols.trans (formatTargetCols_of_keep _ today hc).symm

/-- Witness for C2_formatted_schema at the concrete single-ticker run. -/
theorem C2_formatted_schema_witness :
    ∃ out, format_esg_data (fetch_historical_esg ["AAA"]
        (fun _ => FetchResult.response 200 (Except.ok (Json.obj [("esgChart",
          Json.obj [("result", Json.arr [Json.obj [("symbolSeries", Json.arr [Json.obj
            [("timestamp", Json.num 1609459200), ("esgScore", Json.num 45),
             ("governanceScore", Json.num 40), ("environmentScore", Json.num 50),
             ("socialScore", Json.num 46)]])]])])]))) 2 (fun _ => 0)).df "2025-10-12" =
        Except.ok out ∧
      out.cols = ["ticker", "timestamp", "last_processing_date"] ++
        scoreColumnOrder.filter (fun c =>
          c ∈ (formattedFrame (fetch_historical_esg ["AAA"]
            (fun _ => FetchResult.response 200 (Except.ok (Json.obj [("esgChart",
              Json.obj [("result", Json.arr [Json.obj [("symbolSeries", Json.arr [Json.obj
                [("timestamp", Json.num 1609459200), ("esgScore", Json.num 45),
                 ("governanceScore", Json.num 40), ("environmentScore", Json.num 50),
                 ("socialScore", Json.num 46)]])]])])]))) 2 (fun _ => 0)).df
            "2025-10-12").cols) ∧
      out.cols = emptyFallbackColumns :=
  C2_formatted_schema ["AAA"]
    (fun _ => FetchResult.response 200 (Except.ok (Json.obj [("esgChart",
      Json.obj [("result", Json.arr [Json.obj [("symbolSeries", Json.arr [Json.obj
        [("timestamp", Json.num 1609459200), ("esgScore", Json.num 45),
         ("governanceScore", Json.num 40), ("environmentScore", Json.num 50),
         ("socialScore", Json.num 46)]])]])])]))) 2 (fun _ => 0) "2025-10-12"
    (List.ne_nil_of_length_pos Nat.one_pos)

/-- Claim C4: an HTTP 429 response makes the loop iteration sleep the
fixed 10 extra seconds after the pacing sleep, contribute zero rows, leave
both the success and the failure counter untouched, and continue with the
next ticker; and in one run every ticker of the input list is requested
exactly once (in particular a 429-hit ticker is never retried). -/
theorem C4_rate_limited (responses : String → FetchResult) (delay : Nat) (rand : Nat → Nat)
    (st : FetchState) (i : Nat) (t : String) (body : Except Unit Json)
    (hresp : responses t = FetchResult.response 429 body) :
    stepTicker responses delay rand st i t =
      { st with sleeps := st.sleeps ++ [delay + rand i, 10],
                requests := st.requests ++ [t] } ∧
    (∀ ts, runLoop responses delay rand st i (t :: ts) =
      runLoop responses delay rand (stepTicker responses delay rand st i t) (i + 1) ts) ∧
    (∀ tickers, (fetch_historical_esg tickers responses delay rand).requests = tickers) := by
  have hcl : classify (responses t) t = TickerOutcome.rateLimited := by
    rw [hresp]
    exact classify_429 body t
  exact ⟨stepTicker_rateLimited responses delay rand st i t hcl,
    fun ts => rfl,
    fun tickers => fetch_requests_eq tickers responses delay rand⟩

/-- Witness for C4_rate_limited on a concrete 429 response. -/
theorem C4_rate_limited_witness :
    stepTicker (fun _ => FetchResult.response 429 (Except.error ())) 2 (fun _ => 1)
        initialState 1 "AAA" =
      { initialState with
          sleeps := initialState.sleeps ++ [2 + (fun _ : Nat => 1) 1, 10],
          requests := initialState.requests ++ ["AAA"] } ∧
    (fetch_historical_esg ["AAA", "BBB"] (fun _ => FetchResult.response 429 (Except.error ()))
        2 (fun _ => 1)).requests = ["AAA", "BBB"] := by
  have h := C4_rate_limited (fun _ => FetchResult.response 429 (Except.error ())) 2
    (fun _ => 1) initialState 1 "AAA" (Except.error ()) rfl
  exact ⟨h.1, h.2.2 ["AAA", "BBB"]⟩

/-- Claim C5: a success-status response whose parsed body fails the
esgChart/result shape guard yields zero rows for that ticker, bumps the
failed-ticker counter by exactly one, and the loop continues with the next
ticker. -/
theorem C5_missing_shape (responses : String → FetchResult) (delay : Nat) (rand : Nat → Nat)
    (st : FetchState) (i : Nat) (t : String) (code : Nat) (data : Json)
    (hresp : responses t = FetchResult.response code (Except.ok data))
    (hok : respOk code)
    (hshape : shapeCheck data = Except.ok false) :
    stepTicker responses delay rand st i t =
      { st with sleeps := st.sleeps ++ [delay + rand i],
                requests := st.requests ++ [t],
                failed_tickers := st.failed_tickers + 1 } ∧
    ∀ ts, runLoop responses delay rand st i (t :: ts) =
      runLoop responses delay rand (stepTicker responses delay rand st i t) (i + 1) ts := by
  have hcl : classify (responses t) t = TickerOutcome.failure := by
    rw [hresp, classify_of_processBody code data t hok, processBody_noData data t hshape]
  exact ⟨stepTicker_failure responses delay rand st i t hcl, fun ts => rfl⟩

/-- Witness for C5_missing_shape on a concrete shapeless body. -/
theorem C5_missing_shape_witness :
    stepTicker (fun _ => FetchResult.response 200 (Except.ok (Json.obj []))) 2 (fun _ => 1)
        initialState 1 "AAA" =
      { initialState with
          sleeps := initialState.sleeps ++ [2 + (fun _ : Nat => 1) 1],
          requests := initialState.requests ++ ["AAA"],
          failed_tickers := initialState.failed_tickers + 1 } ∧
    runLoop (fun _ => FetchResult.response 200 (Except.ok (Json.obj []))) 2 (fun _ => 1)
        initialState 1 ["AAA", "BBB"] =
      runLoop (fun _ => FetchResult.response 200 (Except.ok (Json.obj []))) 2 (fun _ => 1)
        (stepTicker (fun _ => FetchResult.response 200 (Except.ok (Json.obj []))) 2
          (fun _ => 1) initialState 1 "AAA") 2 ["BBB"] := by
  have h := C5_missing_shape (fun _ => FetchResult.response 200 (Except.ok (Json.obj []))) 2
    (fun _ => 1) initialState 1 "AAA" 200 (Json.obj []) rfl (by decide) rfl
  exact ⟨h.1, h.2 ["BBB"]⟩

/-- Claim C9: when a success response parses and the symbolSeries is
extracted, but one of the four score fields is absent from every record,
the fixed column projection (or an earlier step) raises, the exception is
caught, and the ticker contributes zero rows and is counted as failed;
consequently a non-empty fetched table always carries all four raw score
columns (its column list is exactly `columnsToKeep`). -/
theorem C9_missing_score_column (responses : String → FetchResult) (delay : Nat)
    (rand : Nat → Nat) (st : FetchState) (i : Nat) (t : String) (code : Nat) (data : Json)
    (rs : List Json) (sc : String)
    (hresp : responses t = FetchResult.response code (Except.ok data))
    (hok : respOk code)
    (hext : extractSeries data = Except.ok (Json.arr rs))
    (hsc : sc ∈ ["esgScore", "governanceScore", "environmentScore", "socialScore"])
    (habs : ∀ r ∈ rs, recordHasField r sc = false) :
    stepTicker responses delay rand st i t =
      { st with sleeps := st.sleeps ++ [delay + rand i],
                requests := st.requests ++ [t],
                failed_tickers := st.failed_tickers + 1 } ∧
    ∀ (tickers : List String) (responses2 : String → FetchResult) (delay2 : Nat)
      (rand2 : Nat → Nat),
      (fetch_historical_esg tickers responses2 delay2 rand2).df.rows ≠ [] →
      ∀ c ∈ ["esgScore", "governanceScore", "environmentScore", "socialScore"],
        c ∈ (fetch_historical_esg tickers responses2 delay2 rand2).df.cols := by
  constructor
  · have hshape : shapeCheck data = Except.ok true := by
      obtain ⟨a, b, c, h1, h2, -, -⟩ := extractSeries_ok_elim data (Json.arr rs) hext
      exact shapeCheck_true_of_subscripts data a b h1 h2
    have hb : buildTickerDF (Json.arr rs) t = Except.error () :=
      buildTickerDF_error_of_missing_score rs t sc hsc habs
    have hcl : classify (responses t) t = TickerOutcome.failure := by
      rw [hresp, classify_of_processBody code data t hok,
        processBody_raised_of_build_error data (Json.arr rs) t hshape hext hb]
    exact stepTicker_failure responses delay rand st i t hcl
  · intro tickers responses2 delay2 rand2 hne c hc
    rw [fetched_cols_of_nonempty tickers responses2 delay2 rand2 hne]
    fin_cases hc <;> decide

/-- Witness for C9_missing_score_column: a series whose single record has a
timestamp but no esgScore, plus the concrete successful run for the second
conjunct. -/
theorem C9_missing_score_column_witness :
    stepTicker (fun _ => FetchResult.response 200 (Except.ok (Json.obj [("esgChart",
        Json.obj [("result", Json.arr [Json.obj [("symbolSeries", Json.arr [Json.obj
          [("timestamp", Json.num 1609459200)]])]])])]))) 2 (fun _ => 1)
        initialState 1 "AAA" =
      { initialState with
          sleeps := initialState.sleeps ++ [2 + (fun _ : Nat => 1) 1],
          requests := initialState.requests ++ ["AAA"],
          failed_tickers := initialState.failed_tickers + 1 } ∧
    "esgScore" ∈ (fetch_historical_esg ["AAA"]
      (fun _ => FetchResult.response 200 (Except.ok (Json.obj [("esgChart",
        Json.obj [("result", Json.arr [Json.obj [("symbolSeries", Json.arr [Json.obj
          [("timestamp", Json.num 1609459200), ("esgScore", Json.num 45),
           ("governanceScore", Json.num 40), ("environmentScore", Json.num 50),
           ("socialScore", Json.num 46)]])]])])]))) 2 (fun _ => 0)).df.cols := by
  have h := C9_missing_score_column (fun _ => FetchResult.response 200 (Except.ok
      (Json.obj [("esgChart", Json.obj [("result", Json.arr [Json.obj [("symbolSeries",
        Json.arr [Json.obj [("timestamp", Json.num 1609459200)]])]])])]))) 2 (fun _ => 1)
      initialState 1 "AAA" 200
      (Json.obj [("esgChart", Json.obj [("result", Json.arr [Json.obj [("symbolSeries",
        Json.arr [Json.obj [("timestamp", Json.num 1609459200)]])]])])])
      [Json.obj [("timestamp", Json.num 1609459200)]] "esgScore"
      rfl (by decide) rfl (by decide)
      (by
        intro r hr
        rw [List.mem_singleton] at hr
        subst hr
        rfl)
  refine ⟨h.1, ?_⟩
  refine h.2 ["AAA"] (fun _ => FetchResult.response 200 (Except.ok (Json.obj [("esgChart",
      Json.obj [("result", Json.arr [Json.obj [("symbolSeries", Json.arr [Json.obj
        [("timestamp", Json.num 1609459200), ("esgScore", Json.num 45),
         ("governanceScore", Json.num 40), ("environmentScore", Json.num 50),
         ("socialScore", Json.num 46)]])]])])]))) 2 (fun _ => 0)
    (List.ne_nil_of_length_pos Nat.one_pos) "esgScore" (by decide)

/-- Claim C10: a success response whose body has the esgChart and result
keys but an empty result list makes the `[0]` indexing raise; the
exception is caught, the ticker contributes zero rows, the failed counter
is bumped by one, and the loop continues with the next ticker. -/
theorem C10_empty_result_list (responses : String → FetchResult) (delay : Nat)
    (rand : Nat → Nat) (st : FetchState) (i : Nat) (t : String) (code : Nat) (data a : Json)
    (hresp : responses t = FetchResult.response code (Except.ok data))
    (hok : respOk code)
    (h1 : pySubscript data "esgChart" = Except.ok a)
    (h2 : pySubscript a "result" = Except.ok (Json.arr [])) :
    stepTicker responses delay rand st i t =
      { st with sleeps := st.sleeps ++ [delay + rand i],
                requests := st.requests ++ [t],
                failed_tickers := st.failed_tickers + 1 } ∧
    ∀ ts, runLoop responses delay rand st i (t :: ts) =
      runLoop responses delay rand (stepTicker responses delay rand st i t) (i + 1) ts := by
  have hshape : shapeCheck data = Except.ok true :=
    shapeCheck_true_of_subscripts data a (Json.arr []) h1 h2
  have hext : extractSeries data = Except.error () :=
    extractSeries_error_of_empty_result data a h1 h2
  have hcl : classify (responses t) t = TickerOutcome.failure := by
    rw [hresp, classify_of_processBody code data t hok,
      processBody_raised_of_extract_error data t hshape hext]
  exact ⟨stepTicker_failure responses delay rand st i t hcl, fun ts => rfl⟩

/-- Witness for C10_empty_result_list on a body with an empty result list. -/
theorem C10_empty_result_list_witness :
    stepTicker (fun _ => FetchResult.response 200 (Except.ok (Json.obj [("esgChart",
        Json.obj [("result", Json.arr [])])]))) 2 (fun _ => 1) initialState 1 "AAA" =
      { initialState with
          sleeps := initialState.sleeps ++ [2 + (fun _ : Nat => 1) 1],
          requests := initialState.requests ++ ["AAA"],
          failed_tickers := initialState.failed_tickers + 1 } ∧
    runLoop (fun _ => FetchResult.response 200 (Except.ok (Json.obj [("esgChart",
        Json.obj [("result", Json.arr [])])]))) 2 (fun _ => 1) initialState 1 ["AAA"] =
      runLoop (fun _ => FetchResult.response 200 (Except.ok (Json.obj [("esgChart",
        Json.obj [("result", Json.arr [])])]))) 2 (fun _ => 1)
        (stepTicker (fun _ => FetchResult.response 200 (Except.ok (Json.obj [("esgChart",
          Json.obj [("result", Json.arr [])])]))) 2 (fun _ => 1) initialState 1 "AAA")
        2 [] := by
  have h := C10_empty_result_list (fun _ => FetchResult.response 200 (Except.ok
      (Json.obj [("esgChart", Json.obj [("result", Json.arr [])])]))) 2 (fun _ => 1)
      initialState 1 "AAA" 200
      (Json.obj [("esgChart", Json.obj [("result", Json.arr [])])])
      (Json.obj [("result", Json.arr [])])
      rfl (by decide) rfl rfl
  exact ⟨h.1, h.2 []⟩

/-- Claim C6: two runs over the identical ticker list against identical
responses produce the same fetched table regardless of the ambient
randomness, and the formatted outputs agree on every column except
`last_processing_date` (here: after dropping that column the two formatted
results are equal, for any two randomness streams and processing dates). -/
theorem C6_determinism (tickers : List String) (responses : String → FetchResult)
    (delay : Nat) (r1 r2 : Nat → Nat) (t1 t2 : String) :
    (fetch_historical_esg tickers responses delay r1).df =
      (fetch_historical_esg tickers responses delay r2).df ∧
    (format_esg_data (fetch_historical_esg tickers responses delay r1).df t1).map
        (fun d => dropCol d "last_processing_date") =
      (format_esg_data (fetch_historical_esg tickers responses delay r2).df t2).map
        (fun d => dropCol d "last_processing_date") := by
  have hdf := fetch_df_rand_indep tickers responses delay r1 r2
  refine ⟨hdf, ?_⟩
  rw [hdf]
  exact format_dropCol_lpd _ t1 t2

/-- Claim C7: for a non-empty input ticker list, every row of the final
formatted output carries a ticker value drawn from the input list. -/
theorem C7_tickers_subset (tickers : List String) (responses : String → FetchResult)
    (delay : Nat) (rand : Nat → Nat) (today : String) (out : DataFrame)
    (hne : tickers ≠ [])
    (hfmt : format_esg_data (fetch_historical_esg tickers responses delay rand).df today =
      Except.ok out) :
    ∀ r ∈ out.rows, ∃ t ∈ tickers, rowGet r "ticker" = Cell.json (Json.str t) := by
  intro r hr
  obtain ⟨r0, hr0, heq⟩ := format_ok_ticker_pres _ out today hfmt r hr
  obtain ⟨t, ht, hv⟩ := fetched_rows_ticker tickers responses delay rand r0 hr0
  exact ⟨t, ht, heq.trans hv⟩

/-- Witness for C7_tickers_subset on the concrete single-ticker run. -/
theorem C7_tickers_subset_witness :
    ∃ t ∈ ["AAA"],
      rowGet [("ticker", Cell.json (Json.str "AAA")),
              ("timestamp", Cell.time
                { year := 2021, month := 1, day := 1, hour := 0, minute := 0, second := 0 }),
              ("last_processing_date", Cell.json (Json.str "2025-10-12")),
              ("total_score", Cell.json (Json.num 45)),
              ("environment_score", Cell.json (Json.num 50)),
              ("social_score", Cell.json (Json.num 46)),
              ("governance_score", Cell.json (Json.num 40))] "ticker" =
        Cell.json (Json.str t) :=
  C7_tickers_subset ["AAA"]
    (fun _ => FetchResult.response 200 (Except.ok (Json.obj [("esgChart",
      Json.obj [("result", Json.arr [Json.obj [("symbolSeries", Json.arr [Json.obj
        [("timestamp", Json.num 1609459200), ("esgScore", Json.num 45),
         ("governanceScore", Json.num 40), ("environmentScore", Json.num 50),
         ("socialScore", Json.num 46)]])]])])]))) 2 (fun _ => 0) "2025-10-12"
    { cols := ["ticker", "timestamp", "last_processing_date", "total_score",
               "environment_score", "social_score", "governance_score"],
      rows := [[("ticker", Cell.json (Json.str "AAA")),
                ("timestamp", Cell.time
                  { year := 2021, month := 1, day := 1,
                    hour := 0, minute := 0, second := 0 }),
                ("last_processing_date", Cell.json (Json.str "2025-10-12")),
                ("total_score", Cell.json (Json.num 45)),
                ("environment_score", Cell.json (Json.num 50)),
                ("social_score", Cell.json (Json.num 46)),
                ("governance_score", Cell.json (Json.num 40))]] }
    (List.cons_ne_nil "AAA" []) rfl _ (List.mem_singleton.mpr rfl)

/-- Claim C8: every row of the formatted output of one run carries the same
`last_processing_date` value, the run's processing date. -/
theorem C8_uniform_processing_date (tickers : List String)
    (responses : String → FetchResult) (delay : Nat) (rand : Nat → Nat) (today : String)
    (out : DataFrame)
    (hfmt : format_esg_data (fetch_historical_esg tickers responses delay rand).df today =
      Except.ok out) :
    ∀ r ∈ out.rows, rowGet r "last_processing_date" = Cell.json (Json.str today) :=
  format_ok_lpd _ out today hfmt

/-- Witness for C8_uniform_processing_date on the concrete run. -/
theorem C8_uniform_processing_date_witness :
    rowGet [("ticker", Cell.json (Json.str "AAA")),
            ("timestamp", Cell.time
              { year := 2021, month := 1, day := 1, hour := 0, minute := 0, second := 0 }),
            ("last_processing_date", Cell.json (Json.str "2025-10-12")),
            ("total_score", Cell.json (Json.num 45)),
            ("environment_score", Cell.json (Json.num 50)),
            ("social_score", Cell.json (Json.num 46)),
            ("governance_score", Cell.json (Json.num 40))] "last_processing_date" =
      Cell.json (Json.str "2025-10-12") :=
  C8_uniform_processing_date ["AAA"]
    (fun _ => FetchResult.response 200 (Except.ok (Json.obj [("esgChart",
      Json.obj [("result", Json.arr [Json.obj [("symbolSeries", Json.arr [Json.obj
        [("timestamp", Json.num 1609459200), ("esgScore", Json.num 45),
         ("governanceScore", Json.num 40), ("environmentScore", Json.num 50),
         ("socialScore", Json.num 46)]])]])])]))) 2 (fun _ => 0) "2025-10-12"
    { cols := ["ticker", "timestamp", "last_processing_date", "total_score",
               "environment_score", "social_score", "governance_score"],
      rows := [[("ticker", Cell.json (Json.str "AAA")),
                ("timestamp", Cell.time
                  { year := 2021, month := 1, day := 1,
                    hour := 0, minute := 0, second := 0 }),
                ("last_processing_date", Cell.json (Json.str "2025-10-12")),
                ("total_score", Cell.json (Json.num 45)),
                ("environment_score", Cell.json (Json.num 50)),
                ("social_score", Cell.json (Json.num 46)),
                ("governance_score", Cell.json (Json.num 40))]] }
    rfl _ (List.mem_singleton.mpr rfl)

end ESGScraper
